import Mathlib

/-!
Verification of the dotawatcher presence/match notifier (src/main.rs).

The development shallowly embeds the three state-observing paths of the
program — the Steam presence poller loop, the Dota match poller loop, and
the gateway presence-update handler — as pure Lean functions over explicit
state.  Network fetches appear as Option-valued inputs (none models a
transport or parse failure), the outbound send appears as a Bool outcome
parameter, and the unwrap-panic on a missing hero id is modelled as an
explicit abort outcome.
-/

namespace Dotawatcher

/-- Online statuses, mirroring the serenity OnlineStatus values that the
program matches on (the catch-all arm of the status macro is the Unknown
case). -/
inductive OnlineStatus where
  | Offline
  | Online
  | Idle
  | DoNotDisturb
  | Invisible
  | Unknown
deriving DecidableEq, Repr

/-- The localization bundle fields used by the three notification paths
(src/main.rs, struct Localization; the bot_activity field is used only for
the bot's own activity line and is omitted). -/
structure Localization where
  plays : String
  won : String
  lost : String
  played_on : String
  with_score : String
  match_duration : String
  minutes : String
  target_name : String
  offline : String
  idle : String
  invisible : String
  online : String
  donotdisturb : String
  unknown : String
  using_phone : String
  using_browser : String
  using_computer : String
  on_steam : String
deriving DecidableEq, Repr

/-- The get_string_for_status macro of src/main.rs. -/
def getStringForStatus (loc : Localization) : OnlineStatus → String
  | OnlineStatus.Offline => loc.offline
  | OnlineStatus.Idle => loc.idle
  | OnlineStatus.Invisible => loc.invisible
  | OnlineStatus.Online => loc.online
  | OnlineStatus.DoNotDisturb => loc.donotdisturb
  | OnlineStatus.Unknown => loc.unknown

/-- struct PlayerState of src/main.rs: the shared tracked status and game. -/
structure PlayerState where
  status : OnlineStatus
  game : Option String
deriving DecidableEq, Repr

/-- The personastate number to status mapping inside get_steam_state
(src/main.rs lines 153-159): unknown codes map to Offline. -/
def personaToStatus : Int → OnlineStatus
  | 0 => OnlineStatus.Offline
  | 1 => OnlineStatus.Online
  | 2 => OnlineStatus.DoNotDisturb
  | 3 => OnlineStatus.Idle
  | _ => OnlineStatus.Offline

/-- One successful-fetch iteration of steamwatcher_loop (src/main.rs lines
195-238): given the tracked state and the freshly parsed state, returns
the state after the tick together with the content handed to send_message
(none when the tick announces nothing).  The send itself only logs on
failure, so its outcome does not feed back into the state. -/
def steamTick (loc : Localization) (cur fetched : PlayerState) :
    PlayerState × Option String :=
  if (cur.game = fetched.game ∨ fetched.game = none) ∧
      (cur.status ≠ OnlineStatus.Offline ∨ fetched.status = OnlineStatus.Offline) then
    (cur, none)
  else
    let status := getStringForStatus loc fetched.status
    let content :=
      if cur.game = fetched.game ∨ fetched.game = none then
        loc.target_name ++ " " ++ status ++ " " ++ loc.on_steam
      else
        loc.target_name ++ " " ++ status ++ " " ++ loc.plays ++ " " ++
          fetched.game.getD "" ++ " " ++ loc.on_steam
    let afterGame : PlayerState := { cur with game := fetched.game }
    let committed : PlayerState :=
      if cur.status ≠ OnlineStatus.Offline ∨ fetched.status = OnlineStatus.Offline then
        afterGame
      else
        { afterGame with status := fetched.status }
    (committed, some content)

/-- A steamwatcher_loop iteration including the fetch: a failed fetch
(get_steam_state returning Err) skips the tick entirely. -/
def steamTickFetched (loc : Localization) (cur : PlayerState)
    (fetched : Option PlayerState) : PlayerState × Option String :=
  match fetched with
  | none => (cur, none)
  | some s => steamTick loc cur s

/-- struct MatchData of src/main.rs: one entry of the recent-matches
response (all numeric fields are i64 in the source, modelled as Int). -/
structure MatchData where
  match_id : Int
  player_slot : Int
  radiant_win : Bool
  hero_id : Int
  duration : Int
  kills : Int
  deaths : Int
  assists : Int
deriving DecidableEq, Repr

/-- The win/loss selection of dotawatcher_loop (src/main.rs lines 284-288):
the Rust comparison radiant_win == (player_slot < 5) on Bool. -/
def matchResult (loc : Localization) (m : MatchData) : String :=
  if m.radiant_win = decide (m.player_slot < 5) then loc.won else loc.lost

/-- The rendered duration in whole minutes: the Rust expression
last.duration / 60 on i64, i.e. division truncating toward zero. -/
def durationMinutes (m : MatchData) : Int :=
  Int.tdiv m.duration 60

/-- The match announcement text of dotawatcher_loop (src/main.rs lines
290-303), given the hero display name that the source obtains by an
unwrap on the catalog lookup. -/
def matchContent (loc : Localization) (hero : String) (m : MatchData) : String :=
  loc.target_name ++ " " ++ matchResult loc m ++ ". " ++ loc.played_on ++ " " ++
    hero ++ " " ++ loc.with_score ++ " " ++ toString m.kills ++ ", " ++
    toString m.deaths ++ ", " ++ toString m.assists ++ ". " ++
    loc.match_duration ++ " " ++ toString (durationMinutes m) ++ " " ++
    loc.minutes ++ "."

/-- The state dotawatcher_loop carries across ticks: the lazily fetched
hero catalog (the HEROES once-cell, modelled as an association list) and
the last_match_id cursor, which starts at 0. -/
structure DotaState where
  heroes : Option (List (Int × String))
  last_match_id : Int
deriving DecidableEq, Repr

/-- The observable outcome of one dotawatcher_loop tick: a silent continue,
an announcement handed to send_message, or the panic of the task at the
unwrap on a hero id that is missing from the catalog. -/
inductive DotaOutcome where
  | skip
  | announce (content : String)
  | abortMissingHero
deriving DecidableEq, Repr

/-- One iteration of dotawatcher_loop (src/main.rs lines 250-314).
heroesFetch is the result of set_heroes when the catalog is not yet
populated; matchesFetch is the result of request_matches; none models a
failed fetch, and an empty matches list is the empty-list continue.  The
cursor test against the previous id and the seeding test against the 0
sentinel are taken verbatim from the source. -/
def dotaTick (loc : Localization) (st : DotaState)
    (heroesFetch : Option (List (Int × String)))
    (matchesFetch : Option (List MatchData)) : DotaState × DotaOutcome :=
  match st.heroes.orElse (fun _ => heroesFetch) with
  | none => (st, DotaOutcome.skip)
  | some hs =>
    let st1 : DotaState := { st with heroes := some hs }
    match matchesFetch with
    | none => (st1, DotaOutcome.skip)
    | some ms =>
      match ms.head? with
      | none => (st1, DotaOutcome.skip)
      | some last =>
        if last.match_id = st1.last_match_id then
          (st1, DotaOutcome.skip)
        else if st1.last_match_id = 0 then
          ({ st1 with last_match_id := last.match_id }, DotaOutcome.skip)
        else
          let st2 : DotaState := { st1 with last_match_id := last.match_id }
          match hs.lookup last.hero_id with
          | none => (st2, DotaOutcome.abortMissingHero)
          | some hero => (st2, DotaOutcome.announce (matchContent loc hero last))

/-- The serenity ClientStatus per-device status map, in field order
desktop, mobile, web. -/
structure ClientStatus where
  desktop : Option OnlineStatus
  mobile : Option OnlineStatus
  web : Option OnlineStatus
deriving DecidableEq, Repr

/-- The serenity ActivityType values; the handler only distinguishes
Custom from everything else. -/
inductive ActivityType where
  | Playing
  | Streaming
  | Listening
  | Watching
  | Custom
  | Competing
deriving DecidableEq, Repr

/-- The asset caption fields of an activity that the handler reads. -/
structure ActivityAssets where
  large_text : Option String
  small_text : Option String
deriving DecidableEq, Repr

/-- The activity fields that presence_update reads. -/
structure Activity where
  kind : ActivityType
  name : String
  details : Option String
  assets : Option ActivityAssets
deriving DecidableEq, Repr

/-- A presence event as presence_update consumes it: guild, user,
top-level status, optional per-device status map, activity list. -/
structure Presence where
  guild_id : Option Nat
  user_id : Nat
  status : OnlineStatus
  client_status : Option ClientStatus
  activities : List Activity
deriving DecidableEq, Repr

/-- The configured target guild and user (TARGET_GUILD, TARGET_USER). -/
structure Config where
  target_guild : Nat
  target_user : Nat
deriving DecidableEq, Repr

/-- The mutable fields of the Handler that presence_update touches: the
last_message dedup cell and the shared current_state. -/
structure HandlerState where
  last_message : Option String
  current_state : PlayerState
deriving DecidableEq, Repr

/-- Where one presence_update invocation exited: filtered out by the
guild/user check, suppressed by the activity-name equality check,
suppressed by the last-message equality check, or dispatched with the
composed content and the send outcome. -/
inductive PresenceResult where
  | filtered
  | suppressedGameEq
  | suppressedLastEq
  | dispatched (content : String) (ok : Bool)
deriving DecidableEq, Repr

/-- The status-label and device-label selection of presence_update
(src/main.rs lines 353-366): the map_or over client_status, preferring the
mobile then the web device status; when neither is present the top-level
status is used with the computer label, and when there is no client_status
at all the top-level status is used with an empty device label. -/
def deriveStatusDevice (loc : Localization) (top : OnlineStatus)
    (cs : Option ClientStatus) : String × String :=
  match cs with
  | none => (getStringForStatus loc top, "")
  | some d =>
    match d.mobile with
    | some s => (getStringForStatus loc s, loc.using_phone)
    | none =>
      match d.web with
      | some s => (getStringForStatus loc s, loc.using_browser)
      | none => (getStringForStatus loc top, loc.using_computer)

/-- The tail of presence_update after the state mutations (src/main.rs
lines 415-428): compare the composed content against last_message, return
silently when equal, otherwise send (the outcome is sendOk, and a failure
is only logged) and overwrite last_message with the content. -/
def dispatchTail (hs : HandlerState) (state1 : PlayerState) (content : String)
    (sendOk : Bool) : HandlerState × PresenceResult :=
  if hs.last_message = some content then
    ({ last_message := hs.last_message, current_state := state1 },
      PresenceResult.suppressedLastEq)
  else
    ({ last_message := some content, current_state := state1 },
      PresenceResult.dispatched content sendOk)

/-- One presence_update invocation (src/main.rs lines 339-429), returning
the Handler state after the call and how the call exited. -/
def presenceUpdate (cfg : Config) (loc : Localization) (hs : HandlerState)
    (p : Presence) (sendOk : Bool) : HandlerState × PresenceResult :=
  if p.guild_id ≠ some cfg.target_guild ∨ p.user_id ≠ cfg.target_user then
    (hs, PresenceResult.filtered)
  else
    let username := loc.target_name
    let sd := deriveStatusDevice loc p.status p.client_status
    let state0 : PlayerState := { hs.current_state with status := p.status }
    match p.activities with
    | [] =>
      let content := username ++ " " ++ sd.1 ++ sd.2
      dispatchTail hs { state0 with game := none } content sendOk
    | activity :: _ =>
      let na : Option String × Option String :=
        if activity.kind = ActivityType.Custom then (activity.details, none)
        else (some activity.name, activity.details)
      if na.1 = state0.game then
        ({ hs with current_state := state0 }, PresenceResult.suppressedGameEq)
      else
        let texts : Option String × Option String :=
          match activity.assets with
          | some a => (a.large_text, a.small_text)
          | none => (none, none)
        let content := username ++ " " ++ sd.1 ++ sd.2 ++ " " ++ loc.plays ++ " " ++
          na.1.getD "" ++ "\n" ++ na.2.getD "" ++ "\n" ++
          texts.1.getD "" ++ "\n" ++ texts.2.getD ""
        dispatchTail hs { state0 with game := na.1 } content sendOk

/-- A concrete localization bundle used for scenario evaluation. -/
def locTest : Localization where
  plays := "plays"
  won := "won the match"
  lost := "lost the match"
  played_on := "played on"
  with_score := "with score"
  match_duration := "match duration"
  minutes := "minutes"
  target_name := "Target"
  offline := "offline"
  idle := "idle"
  invisible := "invisible"
  online := "online"
  donotdisturb := "do not disturb"
  unknown := "unknown"
  using_phone := " using phone"
  using_browser := " using browser"
  using_computer := " using computer"
  on_steam := "on Steam"

/-- A concrete configuration used for scenario evaluation. -/
def cfgTest : Config where
  target_guild := 10
  target_user := 20

/-- Helper: whenever dispatchTail reports a dispatched content, the
last_message cell holds exactly that content afterwards, whatever the send
outcome was. -/
theorem dispatchTail_dispatched (hs : HandlerState) (state1 : PlayerState)
    (content : String) (sendOk : Bool) (hs' : HandlerState) (c : String) (b : Bool)
    (h : dispatchTail hs state1 content sendOk = (hs', PresenceResult.dispatched c b)) :
    hs'.last_message = some c := by
  unfold dispatchTail at h
  split at h
  · simp at h
  · simp only [Prod.mk.injEq, PresenceResult.dispatched.injEq] at h
    obtain ⟨h1, h2, _⟩ := h
    rw [← h1, ← h2]

/-- C1: the spec requires that a match whose hero id is absent from the
hero catalog is announced with the hero segment skipped after logging, and
that the absent lookup is never fatal.  The code instead calls unwrap on
the catalog lookup (src/main.rs line 294), so the tick aborts with a panic
and no announcement is produced: with a seeded cursor, a catalog holding
only hero 1, and a new match carrying hero id 14, the tick ends in the
abort outcome. -/
theorem C1_missing_hero_aborts :
    dotaTick locTest ⟨some [(1, "Anti-Mage")], 100⟩ none
        (some [⟨200, 2, true, 14, 754, 1, 2, 3⟩]) =
      (⟨some [(1, "Anti-Mage")], 200⟩, DotaOutcome.abortMissingHero) := by
  rfl

/-- C2 counterexample: the claim states that when the fetched game is
absent and the tracked game is non-empty, the tracked game survives the
tick even when the same tick announces a status change.  With tracked
state Offline plus game Terraria and a fetched state Online with no game,
the tick announces the status change and overwrites the tracked game with
none (src/main.rs line 222 runs unconditionally on the announce path). -/
theorem C2_counterexample :
    steamTick locTest ⟨OnlineStatus.Offline, some "Terraria"⟩
        ⟨OnlineStatus.Online, none⟩ =
      (⟨OnlineStatus.Online, none⟩, some "Target online on Steam") ∧
    (⟨OnlineStatus.Online, (none : Option String)⟩ : PlayerState).game ≠
      some "Terraria" := by
  exact ⟨rfl, by simp⟩

/-- C2 (amended): when the fetched game is absent, the tick never
announces a game-stopped event (any announcement is the status-only
message) and never overwrites the tracked game with a different game; a
silent tick leaves the whole state untouched, but a tick that announces a
status change (tracked status Offline, fetched status non-Offline) commits
the fetched status and resets the tracked game to none. -/
theorem C2_absent_game (loc : Localization) (cur fetched : PlayerState)
    (hg : fetched.game = none) :
    ((steamTick loc cur fetched).2 = none → (steamTick loc cur fetched).1 = cur) ∧
    ((steamTick loc cur fetched).2 ≠ none →
      (steamTick loc cur fetched).2 =
        some (loc.target_name ++ " " ++ getStringForStatus loc fetched.status ++
          " " ++ loc.on_steam) ∧
      (steamTick loc cur fetched).1 = ⟨fetched.status, none⟩ ∧
      cur.status = OnlineStatus.Offline ∧ fetched.status ≠ OnlineStatus.Offline) := by
  by_cases hn : cur.status ≠ OnlineStatus.Offline ∨ fetched.status = OnlineStatus.Offline
  · simp [steamTick, hg, hn]
  · push_neg at hn
    simp [steamTick, hg, hn.1, hn.2]

/-- C2 witness: the amended theorem applied at the concrete counterexample
input. -/
theorem C2_absent_game_witness :
    (⟨OnlineStatus.Online, (none : Option String)⟩ : PlayerState).game = none ∧
    ((steamTick locTest ⟨OnlineStatus.Offline, some "Terraria"⟩
        ⟨OnlineStatus.Online, none⟩).2 = none →
      (steamTick locTest ⟨OnlineStatus.Offline, some "Terraria"⟩
        ⟨OnlineStatus.Online, none⟩).1 = ⟨OnlineStatus.Offline, some "Terraria"⟩) ∧
    ((steamTick locTest ⟨OnlineStatus.Offline, some "Terraria"⟩
        ⟨OnlineStatus.Online, none⟩).2 ≠ none →
      (steamTick locTest ⟨OnlineStatus.Offline, some "Terraria"⟩
        ⟨OnlineStatus.Online, none⟩).2 =
        some (locTest.target_name ++ " " ++
          getStringForStatus locTest OnlineStatus.Online ++ " " ++ locTest.on_steam) ∧
      (steamTick locTest ⟨OnlineStatus.Offline, some "Terraria"⟩
        ⟨OnlineStatus.Online, none⟩).1 = ⟨OnlineStatus.Online, none⟩ ∧
      (⟨OnlineStatus.Offline, some "Terraria"⟩ : PlayerState).status =
        OnlineStatus.Offline ∧
      (⟨OnlineStatus.Online, (none : Option String)⟩ : PlayerState).status ≠
        OnlineStatus.Offline) :=
  ⟨rfl, C2_absent_game locTest ⟨OnlineStatus.Offline, some "Terraria"⟩
    ⟨OnlineStatus.Online, none⟩ rfl⟩

/-- C3 counterexample: the claim states that a failed send leaves
LastNotification unchanged.  With an initially empty last_message and a
send that fails, the handler still overwrites last_message with the
composed content (src/main.rs line 428 runs after the error is only
logged). -/
theorem C3_counterexample :
    presenceUpdate cfgTest locTest ⟨none, ⟨OnlineStatus.Offline, none⟩⟩
        ⟨some 10, 20, OnlineStatus.Online, none, []⟩ false =
      (⟨some "Target online", ⟨OnlineStatus.Online, none⟩⟩,
        PresenceResult.dispatched "Target online" false) ∧
    (some "Target online" ≠ (none : Option String)) := by
  exact ⟨rfl, by simp⟩

/-- C3 (amended): whenever the dispatch path is reached, last_message is
overwritten with the composed text regardless of whether the send
succeeded; the failure is only logged and the invocation performs no
retry (each invocation dispatches at most once, by construction of the
result). -/
theorem C3_last_message_always_updated (cfg : Config) (loc : Localization)
    (hs : HandlerState) (p : Presence) (ok : Bool) (hs' : HandlerState)
    (c : String) (b : Bool)
    (h : presenceUpdate cfg loc hs p ok = (hs', PresenceResult.dispatched c b)) :
    hs'.last_message = some c := by
  unfold presenceUpdate at h
  split at h
  · simp at h
  · cases hact : p.activities with
    | nil =>
      rw [hact] at h
      exact dispatchTail_dispatched _ _ _ _ _ _ _ h
    | cons a rest =>
      rw [hact] at h
      dsimp only at h
      split at h <;> split at h
      · simp at h
      · exact dispatchTail_dispatched _ _ _ _ _ _ _ h
      · simp at h
      · exact dispatchTail_dispatched _ _ _ _ _ _ _ h

/-- C3 witness: the amended theorem applied at the concrete
counterexample input with a failing send. -/
theorem C3_last_message_witness :
    presenceUpdate cfgTest locTest ⟨none, ⟨OnlineStatus.Offline, none⟩⟩
        ⟨some 10, 20, OnlineStatus.Online, none, []⟩ false =
      (⟨some "Target online", ⟨OnlineStatus.Online, none⟩⟩,
        PresenceResult.dispatched "Target online" false) ∧
    (⟨some "Target online", ⟨OnlineStatus.Online, none⟩⟩ : HandlerState).last_message =
      some "Target online" :=
  ⟨rfl, C3_last_message_always_updated cfgTest locTest
    ⟨none, ⟨OnlineStatus.Offline, none⟩⟩ ⟨some 10, 20, OnlineStatus.Online, none, []⟩
    false ⟨some "Target online", ⟨OnlineStatus.Online, none⟩⟩ "Target online" false rfl⟩

/-- C4 counterexample: the claim states that seededness is marked
explicitly rather than by comparing the cursor against a sentinel that can
collide with a legitimate match id of zero.  The code seeds by the test
last_match_id == 0 (src/main.rs lines 244 and 278).  Concretely: a first
successful poll whose newest match has id 0 leaves the poller state
identical to the unseeded start (no seeding is recorded), and the next
poll, fetching a genuinely newer match with id 5, is then consumed as the
seeding poll and announces nothing — whereas under the claim the first
poll would have seeded and the match with id 5 would be a new match. -/
theorem C4_counterexample :
    dotaTick locTest ⟨some [(1, "Anti-Mage")], 0⟩ none
        (some [⟨0, 2, true, 1, 600, 1, 2, 3⟩]) =
      (⟨some [(1, "Anti-Mage")], 0⟩, DotaOutcome.skip) ∧
    dotaTick locTest ⟨some [(1, "Anti-Mage")], 0⟩ none
        (some [⟨5, 2, true, 1, 600, 1, 2, 3⟩]) =
      (⟨some [(1, "Anti-Mage")], 5⟩, DotaOutcome.skip) :=
  ⟨rfl, rfl⟩

/-- C4 (amended): seededness is tracked by the sentinel cursor value 0,
not by an explicit mark.  Whenever the cursor is 0 the tick announces
nothing — in particular the match used to seed the cursor is never
announced — and on a successful fetch the cursor moves to the newest
match id (which, when that id is itself 0, coincides with the sentinel
and leaves the poller effectively unseeded). -/
theorem C4_sentinel_seeding (loc : Localization) (st : DotaState)
    (hf : Option (List (Int × String))) (mf : Option (List MatchData))
    (h0 : st.last_match_id = 0) :
    (dotaTick loc st hf mf).2 = DotaOutcome.skip ∧
    (∀ hs ms m, st.heroes = some hs → mf = some ms → ms.head? = some m →
      (dotaTick loc st hf mf).1.last_match_id = m.match_id) := by
  constructor
  · unfold dotaTick
    cases hor : st.heroes.orElse (fun _ => hf) with
    | none => simp
    | some hs =>
      simp only []
      cases mf with
      | none => simp
      | some ms =>
        cases hm : ms.head? with
        | none => simp [hm]
        | some last =>
          simp only [hm]
          by_cases he : last.match_id = st.last_match_id
          · simp [he]
          · simp only [he, h0]
            split <;> simp
  · intro hs ms m hh hmf hhd
    subst hmf
    unfold dotaTick
    rw [hh]
    simp only [Option.orElse, hhd]
    by_cases he : m.match_id = st.last_match_id
    · simp [he, h0]
    · simp only [h0]
      split
      · rename_i hz
        simp [hz]
      · split <;> simp_all

/-- C4 witness: the amended theorem applied at the unseeded state with a
successful fetch of a match with id 5. -/
theorem C4_sentinel_seeding_witness :
    (⟨some [(1, "Anti-Mage")], 0⟩ : DotaState).last_match_id = 0 ∧
    (dotaTick locTest ⟨some [(1, "Anti-Mage")], 0⟩ none
        (some [⟨5, 2, true, 1, 600, 1, 2, 3⟩])).2 = DotaOutcome.skip ∧
    (dotaTick locTest ⟨some [(1, "Anti-Mage")], 0⟩ none
        (some [⟨5, 2, true, 1, 600, 1, 2, 3⟩])).1.last_match_id =
      (⟨5, 2, true, 1, 600, 1, 2, 3⟩ : MatchData).match_id :=
  ⟨rfl, (C4_sentinel_seeding locTest ⟨some [(1, "Anti-Mage")], 0⟩ none
      (some [⟨5, 2, true, 1, 600, 1, 2, 3⟩]) rfl).1,
    (C4_sentinel_seeding locTest ⟨some [(1, "Anti-Mage")], 0⟩ none
      (some [⟨5, 2, true, 1, 600, 1, 2, 3⟩]) rfl).2 [(1, "Anti-Mage")]
      [⟨5, 2, true, 1, 600, 1, 2, 3⟩] ⟨5, 2, true, 1, 600, 1, 2, 3⟩ rfl rfl rfl⟩

/-- C5 counterexample: the claim states that the first present per-device
status in the order mobile, web, desktop provides the status label, the
top-level status being used only when no per-device status is present.
For an event whose device map carries only a desktop status Idle while the
top-level status is Online, the code never reads the desktop status
(src/main.rs lines 355-366): the message shows the top-level Online label,
not the device-specific Idle label. -/
theorem C5_counterexample :
    presenceUpdate cfgTest locTest ⟨none, ⟨OnlineStatus.Offline, none⟩⟩
        ⟨some 10, 20, OnlineStatus.Online,
          some ⟨some OnlineStatus.Idle, none, none⟩, []⟩ true =
      (⟨some "Target online using computer", ⟨OnlineStatus.Online, none⟩⟩,
        PresenceResult.dispatched "Target online using computer" true) ∧
    ("Target online using computer" ≠ "Target idle using computer") :=
  ⟨rfl, by decide⟩

/-- C5 (amended): the device-specific status is preferred in the order
mobile then web only; when neither mobile nor web carries a status — even
if the desktop entry does — the top-level status is used with the
computer device label, and when the event has no device map at all the
top-level status is used with no device label.  An event with device map
mobile Idle and no activities yields the Idle label, the phone label and
no game clause. -/
theorem C5_device_status :
    (∀ (loc : Localization) (top : OnlineStatus) (d : ClientStatus) (s : OnlineStatus),
      d.mobile = some s →
        deriveStatusDevice loc top (some d) = (getStringForStatus loc s, loc.using_phone)) ∧
    (∀ (loc : Localization) (top : OnlineStatus) (d : ClientStatus) (s : OnlineStatus),
      d.mobile = none → d.web = some s →
        deriveStatusDevice loc top (some d) = (getStringForStatus loc s, loc.using_browser)) ∧
    (∀ (loc : Localization) (top : OnlineStatus) (d : ClientStatus),
      d.mobile = none → d.web = none →
        deriveStatusDevice loc top (some d) = (getStringForStatus loc top, loc.using_computer)) ∧
    (∀ (loc : Localization) (top : OnlineStatus),
      deriveStatusDevice loc top none = (getStringForStatus loc top, "")) ∧
    presenceUpdate cfgTest locTest ⟨none, ⟨OnlineStatus.Offline, none⟩⟩
        ⟨some 10, 20, OnlineStatus.Online,
          some ⟨none, some OnlineStatus.Idle, none⟩, []⟩ true =
      (⟨some "Target idle using phone", ⟨OnlineStatus.Online, none⟩⟩,
        PresenceResult.dispatched "Target idle using phone" true) := by
  refine ⟨?_, ?_, ?_, ?_, rfl⟩
  · intro loc top d s hm
    simp [deriveStatusDevice, hm]
  · intro loc top d s hm hw
    simp [deriveStatusDevice, hm, hw]
  · intro loc top d hm hw
    simp [deriveStatusDevice, hm, hw]
  · intro loc top
    rfl

/-- C5 witness: the amended theorem applied to a device map carrying a
mobile Idle status. -/
theorem C5_device_status_witness :
    (⟨none, some OnlineStatus.Idle, none⟩ : ClientStatus).mobile =
      some OnlineStatus.Idle ∧
    deriveStatusDevice locTest OnlineStatus.Online
        (some ⟨none, some OnlineStatus.Idle, none⟩) =
      (getStringForStatus locTest OnlineStatus.Idle, locTest.using_phone) :=
  ⟨rfl, C5_device_status.1 locTest OnlineStatus.Online
    ⟨none, some OnlineStatus.Idle, none⟩ OnlineStatus.Idle rfl⟩

/-- C6 counterexample: the claim states that blank or absent fields among
detail and the asset captions are omitted rather than rendered as empty
lines.  A non-custom activity with no detail and no assets is rendered by
the fixed format string of src/main.rs lines 400-410 with all three
newline separators kept, producing three trailing blank lines. -/
theorem C6_counterexample :
    presenceUpdate cfgTest locTest ⟨none, ⟨OnlineStatus.Offline, none⟩⟩
        ⟨some 10, 20, OnlineStatus.Online, none,
          [⟨ActivityType.Playing, "Terraria", none, none⟩]⟩ true =
      (⟨some "Target online plays Terraria\n\n\n",
          ⟨OnlineStatus.Online, some "Terraria"⟩⟩,
        PresenceResult.dispatched "Target online plays Terraria\n\n\n" true) ∧
    ("Target online plays Terraria\n\n\n" ≠ "Target online plays Terraria") :=
  ⟨rfl, by decide⟩

/-- C6 (amended): for a non-custom activity that reaches the composition
step, the message always contains the three newline separators, with the
detail and asset caption slots rendered as possibly-empty strings; absent
fields therefore appear as blank lines rather than being omitted. -/
theorem C6_blank_lines (cfg : Config) (loc : Localization) (hs : HandlerState)
    (p : Presence) (ok : Bool) (a : Activity) (rest : List Activity)
    (hg : p.guild_id = some cfg.target_guild) (hu : p.user_id = cfg.target_user)
    (hact : p.activities = a :: rest) (hk : a.kind ≠ ActivityType.Custom)
    (hne : some a.name ≠ hs.current_state.game) :
    (presenceUpdate cfg loc hs p ok).2 = PresenceResult.suppressedLastEq ∨
    (presenceUpdate cfg loc hs p ok).2 =
      PresenceResult.dispatched
        (loc.target_name ++ " " ++ (deriveStatusDevice loc p.status p.client_status).1 ++
          (deriveStatusDevice loc p.status p.client_status).2 ++ " " ++ loc.plays ++
          " " ++ a.name ++ "\n" ++ a.details.getD "" ++ "\n" ++
          (a.assets.bind ActivityAssets.large_text).getD "" ++ "\n" ++
          (a.assets.bind ActivityAssets.small_text).getD "") ok := by
  unfold presenceUpdate dispatchTail
  rw [if_neg (by simp [hg, hu]), hact]
  dsimp only
  rw [if_neg hk]
  dsimp only
  rw [if_neg hne]
  cases ha : a.assets with
  | none =>
    simp only [ha]
    split
    · exact Or.inl rfl
    · exact Or.inr rfl
  | some x =>
    simp only [ha]
    split
    · exact Or.inl rfl
    · exact Or.inr rfl

/-- C6 witness: the amended theorem applied to a Playing activity with no
detail and no assets; the dispatched text carries the three blank lines. -/
theorem C6_blank_lines_witness :
    ((⟨some 10, 20, OnlineStatus.Online, none,
        [⟨ActivityType.Playing, "Terraria", none, none⟩]⟩ : Presence).guild_id =
      some cfgTest.target_guild) ∧
    ((presenceUpdate cfgTest locTest ⟨none, ⟨OnlineStatus.Offline, none⟩⟩
        ⟨some 10, 20, OnlineStatus.Online, none,
          [⟨ActivityType.Playing, "Terraria", none, none⟩]⟩ true).2 =
        PresenceResult.suppressedLastEq ∨
      (presenceUpdate cfgTest locTest ⟨none, ⟨OnlineStatus.Offline, none⟩⟩
        ⟨some 10, 20, OnlineStatus.Online, none,
          [⟨ActivityType.Playing, "Terraria", none, none⟩]⟩ true).2 =
        PresenceResult.dispatched "Target online plays Terraria\n\n\n" true) :=
  ⟨rfl, C6_blank_lines cfgTest locTest ⟨none, ⟨OnlineStatus.Offline, none⟩⟩
    ⟨some 10, 20, OnlineStatus.Online, none,
      [⟨ActivityType.Playing, "Terraria", none, none⟩]⟩ true
    ⟨ActivityType.Playing, "Terraria", none, none⟩ [] rfl rfl rfl
    (by decide) (by decide)⟩

/-- C7: starting from tracked state Offline with no game, a poll reading
Online with game Terraria announces exactly one message carrying the
Online status string and the game name, and commits both values; an
immediately following poll reading the identical values announces
nothing. -/
theorem C7_terraria_scenario (loc : Localization) :
    steamTick loc ⟨OnlineStatus.Offline, none⟩
        ⟨OnlineStatus.Online, some "Terraria"⟩ =
      (⟨OnlineStatus.Online, some "Terraria"⟩,
        some (loc.target_name ++ " " ++ loc.online ++ " " ++ loc.plays ++ " " ++
          "Terraria" ++ " " ++ loc.on_steam)) ∧
    steamTick loc ⟨OnlineStatus.Online, some "Terraria"⟩
        ⟨OnlineStatus.Online, some "Terraria"⟩ =
      (⟨OnlineStatus.Online, some "Terraria"⟩, none) :=
  ⟨rfl, rfl⟩

/-- C8: for every presence event that passes the guild and user filter,
the tracked status is overwritten with the top-level event status before
any dedup decision; an event with no activities resets the tracked game
to none; and an invocation suppressed by either the activity-name
equality check or the last-message equality check leaves last_message
untouched (nothing is sent on those paths). -/
theorem C8_status_committed_before_dedup (cfg : Config) (loc : Localization)
    (hs : HandlerState) (p : Presence) (ok : Bool)
    (hg : p.guild_id = some cfg.target_guild) (hu : p.user_id = cfg.target_user) :
    (presenceUpdate cfg loc hs p ok).1.current_state.status = p.status ∧
    (p.activities = [] → (presenceUpdate cfg loc hs p ok).1.current_state.game = none) ∧
    (((presenceUpdate cfg loc hs p ok).2 = PresenceResult.suppressedGameEq ∨
      (presenceUpdate cfg loc hs p ok).2 = PresenceResult.suppressedLastEq) →
      (presenceUpdate cfg loc hs p ok).1.last_message = hs.last_message) := by
  unfold presenceUpdate dispatchTail
  rw [if_neg (by simp [hg, hu])]
  cases hact : p.activities with
  | nil =>
    simp only [hact]
    split <;> simp
  | cons a rest =>
    simp only [hact]
    split <;> split <;> (try split) <;> simp

/-- C8 witness: the theorem applied to an event with no activities whose
composed text equals the stored last message, so the invocation is
suppressed by the last-message check yet still commits the status and
resets the game. -/
theorem C8_status_committed_witness :
    ((⟨some 10, 20, OnlineStatus.Idle, none, []⟩ : Presence).guild_id =
      some cfgTest.target_guild) ∧
    ((⟨some 10, 20, OnlineStatus.Idle, none, []⟩ : Presence).user_id =
      cfgTest.target_user) ∧
    ((presenceUpdate cfgTest locTest
        ⟨some "Target idle", ⟨OnlineStatus.Online, some "Terraria"⟩⟩
        ⟨some 10, 20, OnlineStatus.Idle, none, []⟩ true).1.current_state.status =
      OnlineStatus.Idle ∧
    (([] : List Activity) = [] →
      (presenceUpdate cfgTest locTest
        ⟨some "Target idle", ⟨OnlineStatus.Online, some "Terraria"⟩⟩
        ⟨some 10, 20, OnlineStatus.Idle, none, []⟩ true).1.current_state.game = none) ∧
    (((presenceUpdate cfgTest locTest
        ⟨some "Target idle", ⟨OnlineStatus.Online, some "Terraria"⟩⟩
        ⟨some 10, 20, OnlineStatus.Idle, none, []⟩ true).2 =
          PresenceResult.suppressedGameEq ∨
      (presenceUpdate cfgTest locTest
        ⟨some "Target idle", ⟨OnlineStatus.Online, some "Terraria"⟩⟩
        ⟨some 10, 20, OnlineStatus.Idle, none, []⟩ true).2 =
          PresenceResult.suppressedLastEq) →
      (presenceUpdate cfgTest locTest
        ⟨some "Target idle", ⟨OnlineStatus.Online, some "Terraria"⟩⟩
        ⟨some 10, 20, OnlineStatus.Idle, none, []⟩ true).1.last_message =
        some "Target idle")) :=
  ⟨rfl, rfl, C8_status_committed_before_dedup cfgTest locTest
    ⟨some "Target idle", ⟨OnlineStatus.Online, some "Terraria"⟩⟩
    ⟨some 10, 20, OnlineStatus.Idle, none, []⟩ true rfl rfl⟩

/-- C9: the announced outcome is the win text exactly when radiant_win
agrees with the player being on radiant (player_slot below 5); a match
with player_slot 2 and radiant_win true is announced as won, one with
player_slot 7 and radiant_win true as lost. -/
theorem C9_win_condition :
    (∀ (loc : Localization) (m : MatchData),
      ((m.radiant_win = true) ↔ m.player_slot < 5) → matchResult loc m = loc.won) ∧
    (∀ (loc : Localization) (m : MatchData),
      ¬((m.radiant_win = true) ↔ m.player_slot < 5) → matchResult loc m = loc.lost) ∧
    dotaTick locTest ⟨some [(1, "Anti-Mage")], 100⟩ none
        (some [⟨200, 2, true, 1, 754, 10, 3, 7⟩]) =
      (⟨some [(1, "Anti-Mage")], 200⟩, DotaOutcome.announce
        "Target won the match. played on Anti-Mage with score 10, 3, 7. match duration 12 minutes.") ∧
    dotaTick locTest ⟨some [(1, "Anti-Mage")], 100⟩ none
        (some [⟨200, 7, true, 1, 754, 10, 3, 7⟩]) =
      (⟨some [(1, "Anti-Mage")], 200⟩, DotaOutcome.announce
        "Target lost the match. played on Anti-Mage with score 10, 3, 7. match duration 12 minutes.") := by
  refine ⟨?_, ?_, rfl, rfl⟩
  · intro loc m h
    by_cases hs5 : m.player_slot < 5
    · simp [matchResult, hs5, h.mpr hs5]
    · have hrw : m.radiant_win = false := by
        cases hb : m.radiant_win
        · rfl
        · exact absurd (h.mp hb) hs5
      simp [matchResult, hrw, hs5]
  · intro loc m h
    by_cases hs5 : m.player_slot < 5
    · have hrw : m.radiant_win = false := by
        cases hb : m.radiant_win
        · rfl
        · exact absurd (iff_of_true hb hs5) h
      simp [matchResult, hrw, hs5]
    · have hrw : m.radiant_win = true := by
        cases hb : m.radiant_win
        · exact absurd (iff_of_false (by simp [hb]) hs5) h
        · rfl
      simp [matchResult, hrw, hs5]

/-- C9 witness: the win clause applied to the match with player_slot 2
and radiant_win true. -/
theorem C9_win_condition_witness :
    (((⟨200, 2, true, 1, 754, 10, 3, 7⟩ : MatchData).radiant_win = true) ↔
      (⟨200, 2, true, 1, 754, 10, 3, 7⟩ : MatchData).player_slot < 5) ∧
    matchResult locTest ⟨200, 2, true, 1, 754, 10, 3, 7⟩ = locTest.won :=
  ⟨by decide, C9_win_condition.1 locTest ⟨200, 2, true, 1, 754, 10, 3, 7⟩ (by decide)⟩

/-- C10: the rendered minute count is the match duration divided by 60,
truncating: for a nonnegative duration the rendered value q satisfies
60 q ≤ duration < 60 q + 60, and a match of 754 seconds is announced
with 12 minutes. -/
theorem C10_duration_truncating (m : MatchData) (h : 0 ≤ m.duration) :
    60 * durationMinutes m ≤ m.duration ∧
    m.duration < 60 * durationMinutes m + 60 ∧
    durationMinutes ⟨200, 2, true, 1, 754, 10, 3, 7⟩ = 12 ∧
    dotaTick locTest ⟨some [(1, "Anti-Mage")], 100⟩ none
        (some [⟨201, 2, true, 1, 754, 1, 1, 1⟩]) =
      (⟨some [(1, "Anti-Mage")], 201⟩, DotaOutcome.announce
        "Target won the match. played on Anti-Mage with score 1, 1, 1. match duration 12 minutes.") := by
  have hdm : durationMinutes m = m.duration / 60 := by
    unfold durationMinutes
    exact Int.tdiv_eq_ediv h (by norm_num)
  refine ⟨?_, ?_, rfl, rfl⟩ <;> rw [hdm] <;> omega

/-- C10 witness: the theorem applied to the 754-second match. -/
theorem C10_duration_witness :
    (0 : Int) ≤ (⟨200, 2, true, 1, 754, 10, 3, 7⟩ : MatchData).duration ∧
    60 * durationMinutes ⟨200, 2, true, 1, 754, 10, 3, 7⟩ ≤
      (⟨200, 2, true, 1, 754, 10, 3, 7⟩ : MatchData).duration :=
  ⟨by decide, (C10_duration_truncating ⟨200, 2, true, 1, 754, 10, 3, 7⟩ (by decide)).1⟩

end Dotawatcher
